import Mathlib

/-!
Shallow embedding of the eic-smear kinematics core
(`src/erhic/ParticleMC.cxx` and `include/eicsmear/erhic/ParticleIdentifier.h`).

C++ `Double_t` values are modelled as real numbers, `Int_t` as integers
(32-bit conversions made explicit where the source relies on them), and
fallible operations return `Option`/`Except`.  ROOT library primitives used
by the source (`TLorentzVector::Dot`, `TVector2::Phi_0_2pi`, `atan2`) are
given their mathematical definitions; ROOT transforms whose numeric value no
claim depends on (`TLorentzRotation` boost-plus-rotation products,
`computeHermesPhiH`) are abstracted as function parameters.
-/

namespace EicSmear

/-- A four-momentum `(px, py, pz, E)`, the data of a ROOT `TLorentzVector`. -/
structure FourVec where
  px : ℝ
  py : ℝ
  pz : ℝ
  E : ℝ

/-- `TLorentzVector::Dot`: the Minkowski product with metric `(+,-,-,-)`:
`a·b = Ea*Eb − pxa*pxb − pya*pyb − pza*pzb`. -/
noncomputable def mdot (a b : FourVec) : ℝ :=
  a.E * b.E - a.px * b.px - a.py * b.py - a.pz * b.pz

/-- Componentwise sum of four-vectors (`TLorentzVector::operator+`). -/
noncomputable def fourAdd (a b : FourVec) : FourVec :=
  ⟨a.px + b.px, a.py + b.py, a.pz + b.pz, a.E + b.E⟩

/-- A pure Lorentz boost with velocity `(vx, vy, vz)` and Lorentz factor `g`,
written as ROOT's `TLorentzRotation` builds it from a boost vector (with
`bgamma = g²/(1+g)`):
`E' = g (E + v·p)`, `p' = p + (g²/(1+g)) (v·p) v + g E v`.
The side conditions `0 < g` and `g² (1 − |v|²) = 1` — `g` is the Lorentz
factor of a subluminal velocity — are carried as hypotheses of the theorems
that use it. -/
noncomputable def lorentzBoost (vx vy vz g : ℝ) (u : FourVec) : FourVec :=
  let s : ℝ := vx * u.px + vy * u.py + vz * u.pz
  let k : ℝ := g ^ 2 / (1 + g)
  { px := u.px + k * s * vx + g * u.E * vx
    py := u.py + k * s * vy + g * u.E * vy
    pz := u.pz + k * s * vz + g * u.E * vz
    E := g * (u.E + s) }

/-- `atan2 y x`, modelled as the argument of the complex number `x + i y`,
which reproduces the C library convention (range `(−π, π]`, `atan2 0 0 = 0`). -/
noncomputable def atan2 (y x : ℝ) : ℝ := Complex.arg ⟨x, y⟩

/-- `TVector2::Phi_0_2pi`: reduce an angle into `[0, 2π)`. -/
noncomputable def phi02pi (x : ℝ) : ℝ := x - 2 * Real.pi * ⌊x / (2 * Real.pi)⌋

/-- The data members of `erhic::ParticleMC`, as read off the constructor's
initialiser list in `ParticleMC.cxx`. -/
structure ParticleMC where
  I : ℤ
  KS : ℤ
  id : ℤ
  orig : ℤ
  daughter : ℤ
  ldaughter : ℤ
  px : ℝ
  py : ℝ
  pz : ℝ
  E : ℝ
  m : ℝ
  pt : ℝ
  xv : ℝ
  yv : ℝ
  zv : ℝ
  parentId : ℤ
  p : ℝ
  theta : ℝ
  phi : ℝ
  rapidity : ℝ
  eta : ℝ
  z : ℝ
  xFeynman : ℝ
  thetaGamma : ℝ
  ptVsGamma : ℝ
  phiPrf : ℝ

/-- The smallest `Int_t` (32-bit) value, `std::numeric_limits<Int_t>::min()`. -/
def intMin : ℤ := -2147483648

/-- The state every `ParticleMC` starts from: the constructor's initialiser
list (`I(-1), KS(-1), id(INT_MIN), orig(-1), daughter(-1), ldaughter(-1)`,
all kinematic and derived doubles `0`, `parentId(INT_MIN)`). -/
def defaultParticleMC : ParticleMC :=
  { I := -1, KS := -1, id := intMin, orig := -1, daughter := -1, ldaughter := -1
    px := 0, py := 0, pz := 0, E := 0, m := 0, pt := 0
    xv := 0, yv := 0, zv := 0, parentId := intMin
    p := 0, theta := 0, phi := 0, rapidity := 0, eta := 0
    z := 0, xFeynman := 0, thetaGamma := 0, ptVsGamma := 0, phiPrf := 0 }

/-- The source's `pt = sqrt(pow(px, 2.) + pow(py, 2.))`. -/
noncomputable def ptOf (pa : ParticleMC) : ℝ := Real.sqrt (pa.px ^ 2 + pa.py ^ 2)

/-- The source's `p = sqrt(pow(pt, 2.) + pow(pz, 2.))`. -/
noncomputable def pOf (pa : ParticleMC) : ℝ := Real.sqrt (ptOf pa ^ 2 + pa.pz ^ 2)

/-- `ParticleMC::ComputeDerivedQuantities`: from `px, py, pz, E` compute
`pt`, `p`, `rapidity`, `eta` (with the `−19` sentinel when a log argument
would be non-positive or zero), `theta = atan2(pt, pz)` and
`phi = Phi_0_2pi(atan2(py, px))`. -/
noncomputable def ComputeDerivedQuantities (pa : ParticleMC) : ParticleMC :=
  let pt := ptOf pa
  let p := pOf pa
  let Epluspz := pa.E + pa.pz
  let Eminuspz := pa.E - pa.pz
  let Ppluspz := p + pa.pz
  let Pminuspz := p - pa.pz
  let rapidity :=
    if Eminuspz ≤ 0 ∨ Pminuspz = 0 ∨ Ppluspz = 0 ∨ Epluspz ≤ 0 then (-19 : ℝ)
    else 0.5 * Real.log (Epluspz / Eminuspz)
  let eta :=
    if Eminuspz ≤ 0 ∨ Pminuspz = 0 ∨ Ppluspz = 0 ∨ Epluspz ≤ 0 then (-19 : ℝ)
    else 0.5 * Real.log (Ppluspz / Pminuspz)
  { pa with
    pt := pt
    p := p
    rapidity := rapidity
    eta := eta
    theta := atan2 pt pa.pz
    phi := phi02pi (atan2 pa.py pa.px) }

/-- `ParticleMC::Get4Vector`: `TLorentzVector(px, py, pz, E)`. -/
def Get4Vector (pa : ParticleMC) : FourVec := ⟨pa.px, pa.py, pa.pz, pa.E⟩

/-- `ParticleMC::Set4Vector`: overwrite `E, px, py, pz` from the argument and
rerun `ComputeDerivedQuantities`. -/
noncomputable def Set4Vector (v : FourVec) (pa : ParticleMC) : ParticleMC :=
  ComputeDerivedQuantities { pa with E := v.E, px := v.px, py := v.py, pz := v.pz }

/-- Modelled from the spec: the event context interface (`EventMC` /
`VirtualEvent` are not under `src/`).  Per §6 it exposes
`getTrack(index) → Particle (0-based)`, `getTrackCount() → integer` and
`getW2() → double`, and per §7 an index-out-of-range lookup is recovered
locally as "no such particle" (none/null), never an exception. -/
structure Event where
  tracks : List ParticleMC
  W2 : ℝ

/-- Modelled from the spec: `getTrack(index) → Particle (0-based)`, returning
none when the index is outside `[0, getTrackCount())`. -/
def Event.getTrack (ev : Event) (i : ℕ) : Option ParticleMC := ev.tracks.get? i

/-- Modelled from the spec: `getTrackCount() → integer`. -/
def Event.getNTracks (ev : Event) : ℕ := ev.tracks.length

/-- Conversion of a C++ `Int_t` value to `unsigned` (32-bit, two's
complement), as performed by the usual arithmetic conversions when the source
compares or indexes with mixed signedness. -/
def toUInt32Z (n : ℤ) : ℕ := (n % 4294967296).toNat

/-- `ParticleMC::GetParent`: with the owning event resolved, return
`GetTrack(GetParentIndex() − 1)` when `GetNTracks() >= GetParentIndex()`,
else NULL; without an event, NULL.  The comparison and the index computation
happen in `unsigned` arithmetic, so a non-positive `orig` either fails the
comparison (negative values convert to huge unsigned values) or wraps the
index out of range (for `orig = 0`), and the spec-modelled bounds-checked
`getTrack` then yields none. -/
def GetParent (oev : Option Event) (pa : ParticleMC) : Option ParticleMC :=
  match oev with
  | none => none
  | some ev =>
      if toUInt32Z pa.orig ≤ ev.getNTracks then
        ev.getTrack (toUInt32Z (pa.orig - 1))
      else
        none

/-- Modelled from the spec: `GetNChildren` is not under `src/`; §4.4 and the
claim define the number of children as `last-daughter − first-daughter + 1`,
with a first-daughter index of 0 meaning "no children" (the guard
`daughter < 1` in `GetChild` rejects that case before this count matters). -/
def childCount (pa : ParticleMC) : ℤ := pa.ldaughter - pa.daughter + 1

/-- `ParticleMC::GetChild`: NULL without an owning event; NULL when the
first-daughter index is `< 1` or the offset is not below the number of
children; otherwise look up 0-based index `daughter + u − 1`, returning the
track only when that index is below the event's track count. -/
def GetChild (oev : Option Event) (u : ℕ) (pa : ParticleMC) : Option ParticleMC :=
  match oev with
  | none => none
  | some ev =>
      if pa.daughter < 1 ∨ (u : ℤ) ≥ childCount pa then none
      else
        let idx : ℤ := pa.daughter + u - 1
        if idx < (ev.getNTracks : ℤ) then ev.getTrack idx.toNat else none

/-- `ParticleMC::ComputeEventDependentQuantities`, embedded with explicit
failure of the three beam-track lookups.  In the source the whole body is a
`try` block whose catch clause logs the exception and returns; the only
throwing operations are the lookups of tracks 1, 2 and 3
(spec §4.2/§7: missing beam tracks raise the caught error), and they precede
every field assignment, so the caught-failure result is the unchanged
particle.  The ROOT boost-plus-rotation transform (`computeBoost`, built from
`TLorentzRotation`/`TRotation`) and `computeHermesPhiH` (declared in
`eicsmear/functions.h`, outside `src/`) are pure real-valued functions of
their four-vector arguments; their numeric values decide no claim, so they
are passed in as parameters `boostT rest zhint v` and `hermes`. -/
noncomputable def ComputeEventDependentQuantities
    (boostT : FourVec → FourVec → FourVec → FourVec)
    (hermes : FourVec → FourVec → FourVec → ℝ)
    (ev : Event) (pa : ParticleMC) : ParticleMC :=
  match ev.getTrack 1, ev.getTrack 2, ev.getTrack 3 with
  | some ht, some lt, some bt =>
      let hadron := Get4Vector ht
      let lepton := Get4Vector lt
      let boson := Get4Vector bt
      let z := mdot hadron (Get4Vector pa) / mdot hadron boson
      let pB := boostT hadron boson (Get4Vector pa)
      let thetaGamma := atan2 (Real.sqrt (pB.px ^ 2 + pB.py ^ 2)) pB.pz
      let ptVsGamma := Real.sqrt (pB.px ^ 2 + pB.py ^ 2)
      let bosonPrf := boostT hadron boson boson
      let leptonPrf := boostT hadron boson lepton
      let phiPrf := hermes pB leptonPrf bosonPrf
      let pCM := boostT (fourAdd boson hadron) boson (Get4Vector pa)
      let xFeynman := 2 * pCM.pz / Real.sqrt ev.W2
      let parentId :=
        if toUInt32Z (pa.orig - 1) < ev.getNTracks then
          match ev.getTrack (toUInt32Z (pa.orig - 1)) with
          | some t => t.id
          | none => pa.parentId
        else pa.parentId
      { pa with
        z := z
        thetaGamma := thetaGamma
        ptVsGamma := ptVsGamma
        phiPrf := phiPrf
        xFeynman := xFeynman
        parentId := parentId }
  | _, _, _ => pa

/-- A whitespace-separated token of an input line, pre-classified by how the
`std::stringstream` extraction operators accept it: a token extractable as an
integer (and hence also as a double), a token extractable only as a double,
or a token extractable as neither. -/
inductive Tok where
  | int (n : ℤ)
  | real (r : ℝ)
  | bad

/-- Extraction `ss >> (Int_t&)`: succeeds on an integer token, fails (sets
the fail state) on anything else or at end of stream. -/
def readIntTok : List Tok → Option (ℤ × List Tok)
  | Tok.int n :: rest => some (n, rest)
  | _ => none

/-- Extraction `ss >> (Double_t&)`: succeeds on an integer or real token,
fails on a bad token or at end of stream. -/
noncomputable def readRealTok : List Tok → Option (ℝ × List Tok)
  | Tok.int n :: rest => some ((n : ℝ), rest)
  | Tok.real r :: rest => some (r, rest)
  | _ => none

/-- The fourteen chained extractions of the `ParticleMC(const std::string&)`
constructor: `I KS id orig daughter ldaughter px py pz E m xv yv zv`.
Returns the populated record and the unconsumed remainder of the stream, or
none if any extraction fails. -/
noncomputable def parse14 (toks : List Tok) : Option (ParticleMC × List Tok) := do
  let (i1, t) ← readIntTok toks
  let (ks, t) ← readIntTok t
  let (pid, t) ← readIntTok t
  let (org, t) ← readIntTok t
  let (dtr, t) ← readIntTok t
  let (ldtr, t) ← readIntTok t
  let (vpx, t) ← readRealTok t
  let (vpy, t) ← readRealTok t
  let (vpz, t) ← readRealTok t
  let (vE, t) ← readRealTok t
  let (vm, t) ← readRealTok t
  let (vxv, t) ← readRealTok t
  let (vyv, t) ← readRealTok t
  let (vzv, t) ← readRealTok t
  some ({ defaultParticleMC with
          I := i1, KS := ks, id := pid, orig := org
          daughter := dtr, ldaughter := ldtr
          px := vpx, py := vpy, pz := vpz, E := vE, m := vm
          xv := vxv, yv := vyv, zv := vzv }, t)

/-- `ParticleMC::ParticleMC(const std::string& line)`: an empty line leaves
every field at its initialiser-list default and performs no further
computation; otherwise the fourteen fields are extracted and, when
`ss.fail() or not ss.eof()` (a malformed field, too few fields, or leftover
content), a `std::runtime_error` is thrown — modelled as `Except.error`, so
no particle value exists on failure.  On success
`ComputeDerivedQuantities` runs before the constructor returns. -/
noncomputable def ParticleMCFromLine (line : List Tok) : Except String ParticleMC :=
  if line.isEmpty then .ok defaultParticleMC
  else
    match parse14 line with
    | some (pa, []) => .ok (ComputeDerivedQuantities pa)
    | some (_, _ :: _) => .error "Bad particle input"
    | none => .error "Bad particle input"

/-- Componentwise difference of four-vectors (`TLorentzVector::operator-`). -/
noncomputable def fourSub (a b : FourVec) : FourVec :=
  ⟨a.px - b.px, a.py - b.py, a.pz - b.pz, a.E - b.E⟩

/-- Modelled from the spec: the classification capability of §9/§4.3
(`ParticleIdentifier.cxx` is not under `src/`; only the header's
declarations are).  The PDG code of the lepton beam is configured; which
status codes mark beam/initial-state, final-state and intermediate
particles, and which species codes are nucleon-beam or boson codes, are the
experiment-dependent predicates the spec leaves to the classifier. -/
structure BeamClassifier where
  leptonPdg : ℤ
  isBeamStatus : ℤ → Bool
  isFinalStatus : ℤ → Bool
  isNucleonPdg : ℤ → Bool
  isBosonPdg : ℤ → Bool
  isBosonStatus : ℤ → Bool

/-- Modelled from the spec: a particle is the incident lepton iff its species
code equals the configured lepton-beam PDG code and its status marks it as a
beam/initial-state particle. -/
def isBeamLepton (c : BeamClassifier) (pa : ParticleMC) : Bool :=
  pa.id == c.leptonPdg && c.isBeamStatus pa.KS

/-- Modelled from the spec: a particle is the incident hadron iff it is
flagged as a beam/initial-state particle and its species code is a
nucleon/hadron-beam species, not the lepton species. -/
def isBeamNucleon (c : BeamClassifier) (pa : ParticleMC) : Bool :=
  c.isBeamStatus pa.KS && c.isNucleonPdg pa.id && pa.id != c.leptonPdg

/-- Modelled from the spec: an explicit exchanged-boson entry has a boson
species code and beam/initial-or-intermediate status. -/
def isExplicitBoson (c : BeamClassifier) (pa : ParticleMC) : Bool :=
  c.isBosonPdg pa.id && c.isBosonStatus pa.KS

/-- Modelled from the spec: a scattered-lepton candidate has the lepton-beam
species code and final-state status. -/
def isScatteredCandidate (c : BeamClassifier) (pa : ParticleMC) : Bool :=
  pa.id == c.leptonPdg && c.isFinalStatus pa.KS

/-- First particle of the list satisfying the predicate, together with its
0-based list index ("first occurrence wins"). -/
def findFirstWithIdx (pred : ParticleMC → Bool) : List ParticleMC → ℕ → Option (ℕ × ParticleMC)
  | [], _ => none
  | pa :: rest, i => if pred pa then some (i, pa) else findFirstWithIdx pred rest (i + 1)

/-- Highest-energy particle of a list (first wins on ties), none if empty. -/
noncomputable def maxByEnergy : List ParticleMC → Option ParticleMC
  | [] => none
  | pa :: rest =>
      match maxByEnergy rest with
      | none => some pa
      | some q => if q.E > pa.E then some q else some pa

/-- Modelled from the spec: the scattered lepton is the candidate produced
directly from the incident lepton (origin index resolves to the incident
lepton's 1-based index) or, absent that traceable lineage, the
highest-energy final-state particle with the lepton species code. -/
noncomputable def findScatteredLepton (c : BeamClassifier) (tracks : List ParticleMC)
    (lepIdx : Option ℕ) : Option ParticleMC :=
  let cands := tracks.filter (isScatteredCandidate c)
  let traced :=
    match lepIdx with
    | some i => cands.find? (fun pa => pa.orig == (i : ℤ) + 1)
    | none => none
  match traced with
  | some pa => some pa
  | none => maxByEnergy cands

/-- Modelled from the spec: `BeamParticles`, the summary of the four beam
roles in fixed order, plus the scattered-hadron slot the algorithm never
fills ("finding the scattered hadron beam is not implemented").  The boson
slot stores a four-momentum because a synthetic boson
(incident-lepton minus scattered-lepton four-momentum) corresponds to no
particle-list entry. -/
structure BeamParticlesM where
  incidentLepton : Option ParticleMC
  incidentHadron : Option ParticleMC
  boson : Option FourVec
  scatteredLepton : Option ParticleMC
  scatteredHadron : Option ParticleMC

/-- Modelled from the spec: the resolved exchanged boson — the explicit
particle-list entry when one exists, otherwise the synthetic four-momentum
(incident lepton − scattered lepton) when both of those are resolved. -/
noncomputable def resolvedBoson (c : BeamClassifier) (ev : Event) : Option FourVec :=
  match findFirstWithIdx (isExplicitBoson c) ev.tracks 0 with
  | some (_, b) => some (Get4Vector b)
  | none =>
      match findFirstWithIdx (isBeamLepton c) ev.tracks 0,
            findScatteredLepton c ev.tracks
              ((findFirstWithIdx (isBeamLepton c) ev.tracks 0).map Prod.fst) with
      | some (_, l), some s => some (fourSub (Get4Vector l) (Get4Vector s))
      | _, _ => none

/-- Modelled from the spec: `IdentifyBeams(event, BeamParticles&)`.  Fills
the summary (the scattered-hadron slot always staying unresolved) and
returns true exactly when the four roles incident lepton, incident hadron,
exchanged boson (explicit or synthetic) and scattered lepton are all
resolved. -/
noncomputable def IdentifyBeamsSummary (c : BeamClassifier) (ev : Event) :
    BeamParticlesM × Bool :=
  let lep := (findFirstWithIdx (isBeamLepton c) ev.tracks 0).map Prod.snd
  let had := (findFirstWithIdx (isBeamNucleon c) ev.tracks 0).map Prod.snd
  let scat := findScatteredLepton c ev.tracks
      ((findFirstWithIdx (isBeamLepton c) ev.tracks 0).map Prod.fst)
  let bos := resolvedBoson c ev
  ({ incidentLepton := lep, incidentHadron := had, boson := bos
     scatteredLepton := scat, scatteredHadron := none },
   lep.isSome && had.isSome && bos.isSome && scat.isSome)

/-- Modelled from the spec: the boson entry of the vector overload — the
explicit particle-list entry when present, else a particle object carrying
the synthetic four-momentum (the spec's result clause counts a synthetically
resolved boson as present for both overloads). -/
noncomputable def bosonSlot (c : BeamClassifier) (ev : Event) : Option ParticleMC :=
  match findFirstWithIdx (isExplicitBoson c) ev.tracks 0 with
  | some (_, b) => some b
  | none =>
      match resolvedBoson c ev with
      | some v => some { defaultParticleMC with px := v.px, py := v.py, pz := v.pz, E := v.E }
      | none => none

/-- Modelled from the spec: `IdentifyBeams(event, vector<Particle*>&)`.  The
vector always has four entries, in the fixed order incident lepton, incident
hadron, exchanged boson, scattered lepton, with none for every unresolved
role; returns true exactly when no entry is none. -/
noncomputable def IdentifyBeamsVec (c : BeamClassifier) (ev : Event) :
    List (Option ParticleMC) × Bool :=
  let lep := (findFirstWithIdx (isBeamLepton c) ev.tracks 0).map Prod.snd
  let had := (findFirstWithIdx (isBeamNucleon c) ev.tracks 0).map Prod.snd
  let scat := findScatteredLepton c ev.tracks
      ((findFirstWithIdx (isBeamLepton c) ev.tracks 0).map Prod.fst)
  let bos := bosonSlot c ev
  ([lep, had, bos, scat],
   lep.isSome && had.isSome && bos.isSome && scat.isSome)

/-! ## Theorems for the claims -/

/-- C6: for every four-vector `v`, `Set4Vector v` followed by reading back
`px, py, pz, E` (via `Get4Vector`) reproduces `v`'s components exactly, and
afterwards `pt, p, theta, phi, rapidity, eta` equal the values
`ComputeDerivedQuantities` produces from `v`'s components alone. -/
theorem C6_set4vector_roundtrip (v : FourVec) (pa : ParticleMC) :
    Get4Vector (Set4Vector v pa) = v
    ∧ (Set4Vector v pa).pt = (ComputeDerivedQuantities
        { defaultParticleMC with px := v.px, py := v.py, pz := v.pz, E := v.E }).pt
    ∧ (Set4Vector v pa).p = (ComputeDerivedQuantities
        { defaultParticleMC with px := v.px, py := v.py, pz := v.pz, E := v.E }).p
    ∧ (Set4Vector v pa).theta = (ComputeDerivedQuantities
        { defaultParticleMC with px := v.px, py := v.py, pz := v.pz, E := v.E }).theta
    ∧ (Set4Vector v pa).phi = (ComputeDerivedQuantities
        { defaultParticleMC with px := v.px, py := v.py, pz := v.pz, E := v.E }).phi
    ∧ (Set4Vector v pa).rapidity = (ComputeDerivedQuantities
        { defaultParticleMC with px := v.px, py := v.py, pz := v.pz, E := v.E }).rapidity
    ∧ (Set4Vector v pa).eta = (ComputeDerivedQuantities
        { defaultParticleMC with px := v.px, py := v.py, pz := v.pz, E := v.E }).eta :=
  ⟨rfl, rfl, rfl, rfl, rfl, rfl, rfl⟩

/-- Helper for C3: a failing beam-track lookup leaves the whole particle
record unchanged, because in the source the three lookups precede every
assignment of the `try` block and the catch clause only logs. -/
theorem computeEventDependent_fail_eq (boostT : FourVec → FourVec → FourVec → FourVec)
    (hermes : FourVec → FourVec → FourVec → ℝ) (ev : Event) (pa : ParticleMC)
    (h : ev.getTrack 1 = none ∨ ev.getTrack 2 = none ∨ ev.getTrack 3 = none) :
    ComputeEventDependentQuantities boostT hermes ev pa = pa := by
  rcases h1 : ev.getTrack 1 with _ | ht <;>
    rcases h2 : ev.getTrack 2 with _ | lt <;>
      rcases h3 : ev.getTrack 3 with _ | bt <;>
        simp_all [ComputeEventDependentQuantities]

/-- C3: if the beam-track lookups inside `ComputeEventDependentQuantities`
fail, the raised error is caught (the embedded function is total — nothing
propagates to the caller) and every frame-dependent field
(`z, xFeynman, thetaGamma, ptVsGamma, phiPrf, parentId`) keeps its previous
(default/unset) value, so the remaining particles of the event can still be
processed. -/
theorem C3_failure_leaves_frame_dependent_fields_unset
    (boostT : FourVec → FourVec → FourVec → FourVec)
    (hermes : FourVec → FourVec → FourVec → ℝ) (ev : Event) (pa : ParticleMC)
    (h : ev.getTrack 1 = none ∨ ev.getTrack 2 = none ∨ ev.getTrack 3 = none) :
    (ComputeEventDependentQuantities boostT hermes ev pa).z = pa.z
    ∧ (ComputeEventDependentQuantities boostT hermes ev pa).xFeynman = pa.xFeynman
    ∧ (ComputeEventDependentQuantities boostT hermes ev pa).thetaGamma = pa.thetaGamma
    ∧ (ComputeEventDependentQuantities boostT hermes ev pa).ptVsGamma = pa.ptVsGamma
    ∧ (ComputeEventDependentQuantities boostT hermes ev pa).phiPrf = pa.phiPrf
    ∧ (ComputeEventDependentQuantities boostT hermes ev pa).parentId = pa.parentId := by
  rw [computeEventDependent_fail_eq boostT hermes ev pa h]
  exact ⟨rfl, rfl, rfl, rfl, rfl, rfl⟩

/-- Witness for C3: an event with no tracks at all makes the hadron-beam
lookup fail, and the default particle comes through unchanged. -/
theorem C3_witness :
    (Event.getTrack ⟨[], 0⟩ 1 = none ∨ Event.getTrack ⟨[], 0⟩ 2 = none
      ∨ Event.getTrack ⟨[], 0⟩ 3 = none)
    ∧ ((ComputeEventDependentQuantities (fun _ _ v => v) (fun _ _ _ => 0)
          ⟨[], 0⟩ defaultParticleMC).z = defaultParticleMC.z
      ∧ (ComputeEventDependentQuantities (fun _ _ v => v) (fun _ _ _ => 0)
          ⟨[], 0⟩ defaultParticleMC).xFeynman = defaultParticleMC.xFeynman
      ∧ (ComputeEventDependentQuantities (fun _ _ v => v) (fun _ _ _ => 0)
          ⟨[], 0⟩ defaultParticleMC).thetaGamma = defaultParticleMC.thetaGamma
      ∧ (ComputeEventDependentQuantities (fun _ _ v => v) (fun _ _ _ => 0)
          ⟨[], 0⟩ defaultParticleMC).ptVsGamma = defaultParticleMC.ptVsGamma
      ∧ (ComputeEventDependentQuantities (fun _ _ v => v) (fun _ _ _ => 0)
          ⟨[], 0⟩ defaultParticleMC).phiPrf = defaultParticleMC.phiPrf
      ∧ (ComputeEventDependentQuantities (fun _ _ v => v) (fun _ _ _ => 0)
          ⟨[], 0⟩ defaultParticleMC).parentId = defaultParticleMC.parentId) :=
  ⟨Or.inl rfl,
   C3_failure_leaves_frame_dependent_fields_unset (fun _ _ v => v) (fun _ _ _ => 0)
     ⟨[], 0⟩ defaultParticleMC (Or.inl rfl)⟩

/-- C10 counterexample: constructing from the empty string does succeed and
does leave the listed sentinel defaults — but the resolved parent species
code (`parentId`), which the spec's data model lists among the
frame-dependent derived fields, is initialised to the minimum representable
signed integer, not to 0 as "all … derived fields 0" asserts. -/
theorem C10_counterexample :
    ParticleMCFromLine [] = Except.ok defaultParticleMC
    ∧ defaultParticleMC.parentId = intMin
    ∧ intMin ≠ (0 : ℤ) :=
  ⟨rfl, rfl, by decide⟩

/-- C10 (amended): constructing from the empty string always succeeds and
yields exactly the initialiser-list defaults — status and lineage indices
`−1`, species code and resolved parent species code both the minimum
representable signed integer, every momentum/energy/mass/vertex input and
every derived kinematic double `0` — and `ComputeDerivedQuantities` is not
run (had it run on the zero momenta, `rapidity` would be the sentinel `−19`,
not `0`). -/
theorem C10_empty_line_defaults :
    ParticleMCFromLine [] = Except.ok defaultParticleMC
    ∧ defaultParticleMC.I = -1 ∧ defaultParticleMC.KS = -1
    ∧ defaultParticleMC.id = intMin ∧ defaultParticleMC.orig = -1
    ∧ defaultParticleMC.daughter = -1 ∧ defaultParticleMC.ldaughter = -1
    ∧ defaultParticleMC.px = 0 ∧ defaultParticleMC.py = 0
    ∧ defaultParticleMC.pz = 0 ∧ defaultParticleMC.E = 0
    ∧ defaultParticleMC.m = 0 ∧ defaultParticleMC.xv = 0
    ∧ defaultParticleMC.yv = 0 ∧ defaultParticleMC.zv = 0
    ∧ defaultParticleMC.pt = 0 ∧ defaultParticleMC.p = 0
    ∧ defaultParticleMC.theta = 0 ∧ defaultParticleMC.phi = 0
    ∧ defaultParticleMC.rapidity = 0 ∧ defaultParticleMC.eta = 0
    ∧ defaultParticleMC.z = 0 ∧ defaultParticleMC.xFeynman = 0
    ∧ defaultParticleMC.thetaGamma = 0 ∧ defaultParticleMC.ptVsGamma = 0
    ∧ defaultParticleMC.phiPrf = 0
    ∧ defaultParticleMC.parentId = intMin
    ∧ (ComputeDerivedQuantities defaultParticleMC).rapidity = -19 := by
  refine ⟨rfl, rfl, rfl, rfl, rfl, rfl, rfl, rfl, rfl, rfl, rfl, rfl, rfl, rfl, rfl,
    rfl, rfl, rfl, rfl, rfl, rfl, rfl, rfl, rfl, rfl, rfl, rfl, ?_⟩
  simp [ComputeDerivedQuantities, defaultParticleMC]

/-- C8: for a non-empty input line, construction fails (throws, modelled as
`Except.error`) exactly when the line does not parse into the fourteen
required fields with the stream fully consumed, and on failure no particle
value is produced. -/
theorem C8_construction_error_iff (line : List Tok) (hne : line ≠ []) :
    ((∃ e, ParticleMCFromLine line = Except.error e)
        ↔ ¬ ∃ pa, parse14 line = some (pa, []))
    ∧ (∀ e, ParticleMCFromLine line = Except.error e →
        ¬ ∃ pa, ParticleMCFromLine line = Except.ok pa) := by
  constructor
  · rw [ParticleMCFromLine, if_neg (by simpa [List.isEmpty_iff] using hne)]
    rcases hp : parse14 line with _ | ⟨pa, rest⟩
    · simp [hp]
    · rcases rest with _ | ⟨t, ts⟩ <;> simp [hp]
  · intro e he ⟨pa, hpa⟩
    rw [he] at hpa
    exact Except.noConfusion hpa

/-- Witness for C8: a single malformed token is non-empty, fails to parse,
and construction reports an error with no particle produced. -/
theorem C8_witness :
    ([Tok.bad] ≠ ([] : List Tok))
    ∧ (((∃ e, ParticleMCFromLine [Tok.bad] = Except.error e)
          ↔ ¬ ∃ pa, parse14 [Tok.bad] = some (pa, []))
      ∧ (∀ e, ParticleMCFromLine [Tok.bad] = Except.error e →
          ¬ ∃ pa, ParticleMCFromLine [Tok.bad] = Except.ok pa)) :=
  ⟨by simp, C8_construction_error_iff [Tok.bad] (by simp)⟩

/-- `TVector2::Phi_0_2pi` lands in `[0, 2π)`. -/
theorem phi02pi_bounds (x : ℝ) : 0 ≤ phi02pi x ∧ phi02pi x < 2 * Real.pi := by
  have h2pi : 0 < 2 * Real.pi := by positivity
  have hne : (2 * Real.pi) ≠ 0 := ne_of_gt h2pi
  have key : phi02pi x = 2 * Real.pi * Int.fract (x / (2 * Real.pi)) := by
    rw [phi02pi, Int.fract]
    field_simp
  rw [key]
  refine ⟨mul_nonneg h2pi.le (Int.fract_nonneg _), ?_⟩
  calc 2 * Real.pi * Int.fract (x / (2 * Real.pi)) < 2 * Real.pi * 1 :=
        (mul_lt_mul_left h2pi).mpr (Int.fract_lt_one _)
    _ = 2 * Real.pi := mul_one _

/-- The total momentum dominates the absolute longitudinal momentum:
`|pz| ≤ p = sqrt(pt² + pz²)`. -/
theorem abs_pz_le_pOf (pa : ParticleMC) : |pa.pz| ≤ pOf pa := by
  rw [pOf, ← Real.sqrt_sq_eq_abs]
  exact Real.sqrt_le_sqrt (by nlinarith [sq_nonneg (ptOf pa)])

/-- C1: after `ComputeDerivedQuantities`, if `E−pz ≤ 0`, `E+pz ≤ 0`,
`p−pz = 0` or `p+pz = 0` then rapidity and eta are exactly `−19`; otherwise
they are `½·ln((E+pz)/(E−pz))` and `½·ln((p+pz)/(p−pz))`, and in that branch
both log arguments are strictly positive reals — over the real-number
semantics of the embedding no NaN or infinity can arise. -/
theorem C1_rapidity_eta_sentinel (pa : ParticleMC) :
    ((pa.E - pa.pz ≤ 0 ∨ pa.E + pa.pz ≤ 0 ∨ pOf pa - pa.pz = 0 ∨ pOf pa + pa.pz = 0) →
      (ComputeDerivedQuantities pa).rapidity = -19
      ∧ (ComputeDerivedQuantities pa).eta = -19)
    ∧ (¬ (pa.E - pa.pz ≤ 0 ∨ pa.E + pa.pz ≤ 0 ∨ pOf pa - pa.pz = 0 ∨ pOf pa + pa.pz = 0) →
      (ComputeDerivedQuantities pa).rapidity
          = 0.5 * Real.log ((pa.E + pa.pz) / (pa.E - pa.pz))
      ∧ (ComputeDerivedQuantities pa).eta
          = 0.5 * Real.log ((pOf pa + pa.pz) / (pOf pa - pa.pz))
      ∧ 0 < (pa.E + pa.pz) / (pa.E - pa.pz)
      ∧ 0 < (pOf pa + pa.pz) / (pOf pa - pa.pz)) := by
  constructor
  · intro h
    have hcond : pa.E - pa.pz ≤ 0 ∨ pOf pa - pa.pz = 0 ∨ pOf pa + pa.pz = 0
        ∨ pa.E + pa.pz ≤ 0 := by tauto
    simp only [ComputeDerivedQuantities]
    rw [if_pos hcond, if_pos hcond]
    exact ⟨rfl, rfl⟩
  · intro h
    push_neg at h
    obtain ⟨h1, h2, h3, h4⟩ := h
    have hcond : ¬ (pa.E - pa.pz ≤ 0 ∨ pOf pa - pa.pz = 0 ∨ pOf pa + pa.pz = 0
        ∨ pa.E + pa.pz ≤ 0) := by
      push_neg
      exact ⟨h1, h3, h4, h2⟩
    have hpm : 0 < pOf pa - pa.pz := by
      have := abs_pz_le_pOf pa
      have h5 : 0 ≤ pOf pa - pa.pz := by
        have := le_abs_self pa.pz
        linarith [abs_pz_le_pOf pa]
      exact lt_of_le_of_ne h5 (Ne.symm h3)
    have hpp : 0 < pOf pa + pa.pz := by
      have h5 : 0 ≤ pOf pa + pa.pz := by
        have := neg_abs_le pa.pz
        linarith [abs_pz_le_pOf pa]
      exact lt_of_le_of_ne h5 (Ne.symm h4)
    simp only [ComputeDerivedQuantities]
    rw [if_neg hcond, if_neg hcond]
    exact ⟨rfl, rfl, div_pos h2 h1, div_pos hpp hpm⟩

/-- Witness for C1: the zero four-momentum satisfies `E − pz ≤ 0` and indeed
gets the `−19` sentinel for both rapidity and eta. -/
theorem C1_witness :
    (ComputeDerivedQuantities defaultParticleMC).rapidity = -19
    ∧ (ComputeDerivedQuantities defaultParticleMC).eta = -19 :=
  (C1_rapidity_eta_sentinel defaultParticleMC).1
    (Or.inl (by norm_num [defaultParticleMC]))

/-- C9: the frame-independent derived quantities satisfy `pt ≥ 0`,
`p ≥ pt`, `theta ∈ [0, π]` and `phi ∈ [0, 2π)` for every particle. -/
theorem C9_intrinsic_ranges (pa : ParticleMC) :
    0 ≤ (ComputeDerivedQuantities pa).pt
    ∧ (ComputeDerivedQuantities pa).pt ≤ (ComputeDerivedQuantities pa).p
    ∧ 0 ≤ (ComputeDerivedQuantities pa).theta
    ∧ (ComputeDerivedQuantities pa).theta ≤ Real.pi
    ∧ 0 ≤ (ComputeDerivedQuantities pa).phi
    ∧ (ComputeDerivedQuantities pa).phi < 2 * Real.pi := by
  have hpt : (ComputeDerivedQuantities pa).pt = ptOf pa := rfl
  have hp : (ComputeDerivedQuantities pa).p = pOf pa := rfl
  have hth : (ComputeDerivedQuantities pa).theta = atan2 (ptOf pa) pa.pz := rfl
  have hph : (ComputeDerivedQuantities pa).phi = phi02pi (atan2 pa.py pa.px) := rfl
  rw [hpt, hp, hth, hph]
  refine ⟨Real.sqrt_nonneg _, ?_, ?_, Complex.arg_le_pi _, (phi02pi_bounds _).1,
    (phi02pi_bounds _).2⟩
  · rw [pOf]
    calc ptOf pa = Real.sqrt (ptOf pa ^ 2) := (Real.sqrt_sq (Real.sqrt_nonneg _)).symm
      _ ≤ Real.sqrt (ptOf pa ^ 2 + pa.pz ^ 2) :=
          Real.sqrt_le_sqrt (by nlinarith [sq_nonneg pa.pz])
  · exact Complex.arg_nonneg_iff.mpr (Real.sqrt_nonneg _)

/-- C4: with `Int_t`-range inputs (`−2³¹ ≤ orig < 2³¹`, track count below
`2³¹`), `GetParent` returns the track at 0-based index `orig − 1` exactly
when that index lies in `[0, N)` — equivalently `1 ≤ orig ≤ N` — and `none`
for every other origin value, including `orig = 0` (whose `unsigned`
index wraps out of range and is recovered by the bounds-checked lookup) and
negative sentinels (whose `unsigned` comparison value exceeds any valid
track count).  The embedding is total: no exception, no unchecked access. -/
theorem C4_get_parent (ev : Event) (pa : ParticleMC)
    (hN : (ev.getNTracks : ℤ) < 2 ^ 31)
    (ho1 : -(2 ^ 31) ≤ pa.orig) (ho2 : pa.orig < 2 ^ 31) :
    (GetParent (some ev) pa =
      if 1 ≤ pa.orig ∧ pa.orig ≤ (ev.getNTracks : ℤ)
      then ev.getTrack (pa.orig - 1).toNat
      else none)
    ∧ ((1 ≤ pa.orig ∧ pa.orig ≤ (ev.getNTracks : ℤ)) →
        (ev.getTrack (pa.orig - 1).toNat).isSome = true) := by
  constructor
  · by_cases hc : 1 ≤ pa.orig ∧ pa.orig ≤ (ev.getNTracks : ℤ)
    · obtain ⟨hc1, hc2⟩ := hc
      have e2 : toUInt32Z (pa.orig - 1) = (pa.orig - 1).toNat := by
        rw [toUInt32Z]; omega
      have hle : toUInt32Z pa.orig ≤ ev.getNTracks := by
        rw [toUInt32Z]; omega
      simp only [GetParent]
      rw [if_pos hle, e2, if_pos ⟨hc1, hc2⟩]
    · rw [if_neg hc]
      rcases lt_trichotomy pa.orig 0 with hneg | hzero | hpos
      · have hgt : ¬ toUInt32Z pa.orig ≤ ev.getNTracks := by
          rw [toUInt32Z]; omega
        simp only [GetParent]
        rw [if_neg hgt]
      · have hle : toUInt32Z pa.orig ≤ ev.getNTracks := by
          rw [toUInt32Z]; omega
        have hwrap : toUInt32Z (pa.orig - 1) = 4294967295 := by
          rw [toUInt32Z]; omega
        have hlen : ev.getNTracks = ev.tracks.length := rfl
        simp only [GetParent]
        rw [if_pos hle, hwrap, Event.getTrack, List.get?_eq_none.mpr (by omega)]
      · have hgt : (ev.getNTracks : ℤ) < pa.orig := by
          by_contra hle2
          push_neg at hle2
          exact hc ⟨by omega, hle2⟩
        have hngt : ¬ toUInt32Z pa.orig ≤ ev.getNTracks := by
          rw [toUInt32Z]; omega
        simp only [GetParent]
        rw [if_neg hngt]
  · intro hc
    have hlt : (pa.orig - 1).toNat < ev.tracks.length := by
      have : (ev.getNTracks : ℤ) = (ev.tracks.length : ℤ) := rfl
      omega
    simp only [Event.getTrack]
    rw [List.get?_eq_get hlt]
    rfl

/-- Witness for C4: a one-track event and `orig = 1` resolve to the first
(0-based index 0) track. -/
theorem C4_witness :
    GetParent (some (⟨[defaultParticleMC], 0⟩ : Event))
      { defaultParticleMC with orig := 1 } = some defaultParticleMC := by
  have h := C4_get_parent (⟨[defaultParticleMC], 0⟩ : Event)
    { defaultParticleMC with orig := 1 }
    (by norm_num [Event.getNTracks]) (by norm_num) (by norm_num)
  rw [h.1, if_pos ⟨by norm_num, by norm_num [Event.getNTracks]⟩]
  rfl

/-- C7: with the owning event resolved, `GetChild u` returns the track at
0-based index `daughter + u − 1` exactly when the first-daughter index is at
least 1, `u` is strictly below the child count
`ldaughter − daughter + 1`, and that index is below the event's track
count; in every other case (including `daughter = 0`, meaning no children)
it returns none. -/
theorem C7_get_child (ev : Event) (u : ℕ) (pa : ParticleMC) :
    (GetChild (some ev) u pa =
      if 1 ≤ pa.daughter ∧ (u : ℤ) < childCount pa
          ∧ pa.daughter + (u : ℤ) - 1 < (ev.getNTracks : ℤ)
      then ev.getTrack (pa.daughter + (u : ℤ) - 1).toNat
      else none)
    ∧ ((1 ≤ pa.daughter ∧ (u : ℤ) < childCount pa
          ∧ pa.daughter + (u : ℤ) - 1 < (ev.getNTracks : ℤ)) →
        (ev.getTrack (pa.daughter + (u : ℤ) - 1).toNat).isSome = true) := by
  constructor
  · simp only [GetChild, childCount]
    by_cases h1 : pa.daughter < 1 ∨ (u : ℤ) ≥ pa.ldaughter - pa.daughter + 1
    · rw [if_pos h1, if_neg (by omega)]
    · rw [if_neg h1]
      by_cases h2 : pa.daughter + (u : ℤ) - 1 < (ev.getNTracks : ℤ)
      · rw [if_pos h2, if_pos (by omega)]
      · rw [if_neg h2, if_neg (by omega)]
  · intro hc
    have hlt : (pa.daughter + (u : ℤ) - 1).toNat < ev.tracks.length := by
      simp only [childCount] at hc
      have : (ev.getNTracks : ℤ) = (ev.tracks.length : ℤ) := rfl
      omega
    simp only [Event.getTrack]
    rw [List.get?_eq_get hlt]
    rfl

/-- Witness for C7: in a three-track event, the particle with
first-daughter = last-daughter = 2 has one child, and `GetChild 0` resolves
to 0-based index 1 (the second track).  This is the spec's worked example. -/
theorem C7_witness :
    GetChild
      (some (⟨[defaultParticleMC, { defaultParticleMC with I := 2 },
               defaultParticleMC], 0⟩ : Event)) 0
      { defaultParticleMC with daughter := 2, ldaughter := 2 }
      = some { defaultParticleMC with I := 2 } := by
  have h := C7_get_child
    (⟨[defaultParticleMC, { defaultParticleMC with I := 2 },
       defaultParticleMC], 0⟩ : Event) 0
    { defaultParticleMC with daughter := 2, ldaughter := 2 }
  rw [h.1, if_pos ⟨by norm_num, by norm_num [childCount],
    by norm_num [Event.getNTracks]⟩]
  rfl

/-- The Minkowski dot product is invariant under one and the same Lorentz
boost applied to both arguments. -/
theorem mdot_lorentzBoost (vx vy vz g : ℝ)
    (hg : g ^ 2 * (1 - (vx ^ 2 + vy ^ 2 + vz ^ 2)) = 1) (hgpos : 0 < g)
    (u w : FourVec) :
    mdot (lorentzBoost vx vy vz g u) (lorentzBoost vx vy vz g w) = mdot u w := by
  have h1g : (1 : ℝ) + g ≠ 0 := by linarith
  simp only [mdot, lorentzBoost]
  field_simp
  linear_combination (((1 + g) ^ 2 * u.E * w.E
      + g * (1 + g) * (u.E * (vx * w.px + vy * w.py + vz * w.pz)
          + w.E * (vx * u.px + vy * u.py + vz * u.pz))
      + g ^ 2 * (vx * u.px + vy * u.py + vz * u.pz)
          * (vx * w.px + vy * w.py + vz * w.pz))) * hg

/-- C2: the Bjorken-z assigned by `ComputeEventDependentQuantities` is
`(hadron · particle) / (hadron · boson)` under the `(+,-,-,-)` Minkowski
dot product, and that value is unchanged when one and the same Lorentz boost
(arbitrary subluminal velocity `(vx, vy, vz)` with Lorentz factor `g`) is
applied to hadron, boson and particle before recomputing. -/
theorem C2_z_dot_product_and_frame_invariance
    (boostT : FourVec → FourVec → FourVec → FourVec)
    (hermes : FourVec → FourVec → FourVec → ℝ)
    (ev : Event) (pa ht lt bt : ParticleMC)
    (hh : ev.getTrack 1 = some ht) (hl : ev.getTrack 2 = some lt)
    (hb : ev.getTrack 3 = some bt)
    (H Bo P : FourVec) (vx vy vz g : ℝ)
    (hg : g ^ 2 * (1 - (vx ^ 2 + vy ^ 2 + vz ^ 2)) = 1) (hgpos : 0 < g) :
    (ComputeEventDependentQuantities boostT hermes ev pa).z
        = mdot (Get4Vector ht) (Get4Vector pa) / mdot (Get4Vector ht) (Get4Vector bt)
    ∧ mdot (lorentzBoost vx vy vz g H) (lorentzBoost vx vy vz g P)
        / mdot (lorentzBoost vx vy vz g H) (lorentzBoost vx vy vz g Bo)
      = mdot H P / mdot H Bo := by
  constructor
  · simp only [ComputeEventDependentQuantities, hh, hl, hb]
  · rw [mdot_lorentzBoost vx vy vz g hg hgpos, mdot_lorentzBoost vx vy vz g hg hgpos]

/-- Witness for C2: a four-track event, the trivial transform parameters, and
a concrete boost with velocity `(0, 0, 3/5)` and Lorentz factor `5/4`. -/
theorem C2_witness :
    (ComputeEventDependentQuantities (fun _ _ v => v) (fun _ _ _ => 0)
        (⟨[defaultParticleMC, defaultParticleMC, defaultParticleMC,
           defaultParticleMC], 0⟩ : Event) defaultParticleMC).z
      = mdot (Get4Vector defaultParticleMC) (Get4Vector defaultParticleMC)
        / mdot (Get4Vector defaultParticleMC) (Get4Vector defaultParticleMC)
    ∧ mdot (lorentzBoost 0 0 (3 / 5) (5 / 4) ⟨0, 0, 1, 2⟩)
          (lorentzBoost 0 0 (3 / 5) (5 / 4) ⟨1, 0, 0, 1⟩)
        / mdot (lorentzBoost 0 0 (3 / 5) (5 / 4) ⟨0, 0, 1, 2⟩)
          (lorentzBoost 0 0 (3 / 5) (5 / 4) ⟨0, 0, -1, 3⟩)
      = mdot ⟨0, 0, 1, 2⟩ ⟨1, 0, 0, 1⟩ / mdot ⟨0, 0, 1, 2⟩ ⟨0, 0, -1, 3⟩ :=
  C2_z_dot_product_and_frame_invariance (fun _ _ v => v) (fun _ _ _ => 0)
    ⟨[defaultParticleMC, defaultParticleMC, defaultParticleMC, defaultParticleMC], 0⟩
    defaultParticleMC defaultParticleMC defaultParticleMC defaultParticleMC
    rfl rfl rfl ⟨0, 0, 1, 2⟩ ⟨0, 0, -1, 3⟩ ⟨1, 0, 0, 1⟩ 0 0 (3 / 5) (5 / 4)
    (by norm_num) (by norm_num)

/-- The vector overload's boson entry is resolved exactly when the summary
overload's boson is. -/
theorem bosonSlot_isSome_eq (c : BeamClassifier) (ev : Event) :
    (bosonSlot c ev).isSome = (resolvedBoson c ev).isSome := by
  rcases h : findFirstWithIdx (isExplicitBoson c) ev.tracks 0 with _ | ⟨i, b⟩
  · rcases h2 : resolvedBoson c ev with _ | v <;>
      simp [bosonSlot, h, h2]
  · simp [bosonSlot, resolvedBoson, h]

/-- C5: each overload of `IdentifyBeams` returns true exactly when all four
beam roles (incident lepton, incident hadron, exchanged boson — explicit or
synthetic —, scattered lepton) are resolved; the vector overload always fills
a four-entry vector in that fixed order with none for every unresolved role;
and the scattered-hadron slot is never identified, whatever the event
contains. -/
theorem C5_identify_beams_roles (c : BeamClassifier) (ev : Event) :
    ((IdentifyBeamsSummary c ev).2 = true ↔
      ((IdentifyBeamsSummary c ev).1.incidentLepton.isSome = true
        ∧ (IdentifyBeamsSummary c ev).1.incidentHadron.isSome = true
        ∧ (IdentifyBeamsSummary c ev).1.boson.isSome = true
        ∧ (IdentifyBeamsSummary c ev).1.scatteredLepton.isSome = true))
    ∧ (IdentifyBeamsSummary c ev).1.scatteredHadron = none
    ∧ (IdentifyBeamsVec c ev).1
        = [(IdentifyBeamsSummary c ev).1.incidentLepton,
           (IdentifyBeamsSummary c ev).1.incidentHadron,
           bosonSlot c ev,
           (IdentifyBeamsSummary c ev).1.scatteredLepton]
    ∧ ((IdentifyBeamsVec c ev).2 = true ↔
        ∀ s ∈ (IdentifyBeamsVec c ev).1, s.isSome = true)
    ∧ (IdentifyBeamsVec c ev).2 = (IdentifyBeamsSummary c ev).2 := by
  refine ⟨?_, rfl, rfl, ?_, ?_⟩
  · simp only [IdentifyBeamsSummary, Bool.and_eq_true]
    tauto
  · simp only [IdentifyBeamsVec, Bool.and_eq_true, List.mem_cons,
      List.not_mem_nil, List.mem_singleton]
    constructor
    · rintro ⟨⟨⟨hle, hha⟩, hbo⟩, hsc⟩ s hs
      rcases hs with rfl | rfl | rfl | rfl | hfalse
      · exact hle
      · exact hha
      · exact hbo
      · exact hsc
      · cases hfalse
    · intro hall
      exact ⟨⟨⟨hall _ (Or.inl rfl), hall _ (Or.inr (Or.inl rfl))⟩,
        hall _ (Or.inr (Or.inr (Or.inl rfl)))⟩,
        hall _ (Or.inr (Or.inr (Or.inr (Or.inl rfl))))⟩
  · simp only [IdentifyBeamsVec, IdentifyBeamsSummary]
    rw [bosonSlot_isSome_eq]

end EicSmear
